import Mathlib

/-!
Shallow embedding of the client-side layers of the roncrm1 frontend:
the axios response interceptor (`src/frontend/src/services/api.ts`),
page-level filter state (`CasesPage.tsx`, `DocumentsPage.tsx`,
`DocumentList.tsx`), the new-case form (`NewCaseForm`), the document
upload widget (`DocumentUpload`), the two WebSocket service variants,
and the settings service (`settingsService.ts`).

Stateful browser behaviour (localStorage writes, header mutation,
navigation, toast display) is embedded as explicit action/effect lists
returned by pure functions; fallible HTTP calls are passed in as
`Except` values.
-/

namespace RonCrm

/-! ### HTTP client wrapper (`src/frontend/src/services/api.ts`) -/

/-- An HTTP error response as seen by the axios interceptor:
`error.response.status` and `error.response.data.detail`. -/
structure HttpResp where
  status : Nat
  detail : Option String
deriving DecidableEq, Repr

/-- A request error: `error.response` is absent for network errors and
timeouts. -/
structure ReqError where
  response : Option HttpResp
deriving DecidableEq, Repr

/-- Session-affecting side effects performed by the interceptor. -/
inductive SessionAction where
  | removeStoredToken
  | deleteAuthHeader
  | navigateToLogin
deriving DecidableEq, Repr

/-- The observable outcome of one run of the response interceptor:
which session actions ran, which toasts were shown, and whether the
error was re-thrown to the caller (`Promise.reject`). -/
structure InterceptorResult where
  actions : List SessionAction
  toasts : List String
  rejected : Bool
deriving DecidableEq, Repr

/-- Toast text in the `status >= 500` branch of `api.ts`. -/
def serverErrorToast : String := "Server error. Please try again later."

/-- Toast text in the final `else` branch of `api.ts`. -/
def genericErrorToast : String := "An unexpected error occurred"

/-- The error handler installed by `api.interceptors.response.use` in
`src/frontend/src/services/api.ts`.  Branch order follows the source:
`status === 401`, then `status >= 500`, then `data.detail`, then the
generic fallback; every branch ends in `Promise.reject(error)`.  When
`error.response` is absent, the optional chaining makes the first two
tests false and `detail` absent, so control reaches the fallback. -/
def responseInterceptor (e : ReqError) : InterceptorResult :=
  match e.response with
  | some r =>
    if r.status = 401 then
      { actions := [.removeStoredToken, .deleteAuthHeader, .navigateToLogin],
        toasts := [], rejected := true }
    else if 500 ≤ r.status then
      { actions := [], toasts := [serverErrorToast], rejected := true }
    else
      match r.detail with
      | some d => { actions := [], toasts := [d], rejected := true }
      | none => { actions := [], toasts := [genericErrorToast], rejected := true }
  | none => { actions := [], toasts := [genericErrorToast], rejected := true }

/-! ### Cases list rendering (`src/frontend/src/pages/CasesPage.tsx`) -/

/-- The payload of a successful `/cases` fetch, as consumed by
`CasesPage` (`casesData?.cases`, `casesData?.total`). Individual cases
are opaque records, identified here by a string. -/
structure CasesData where
  cases : List String
  total : Nat
deriving DecidableEq, Repr

/-- `CaseTable` receives `casesData?.cases || []`. -/
def renderedCases (cached : Option CasesData) : List String :=
  match cached with
  | some d => d.cases
  | none => []

/-- Modelled from the spec: the query cache's reaction to a failed
refetch is implemented by the `react-query` dependency, not by code in
this repository.  Per the spec, on a server fault "the data layer keeps
last good cache if any" (the page uses `keepPreviousData`), so the
cached value is unchanged by an error. -/
def queryStateAfterError (cached : Option CasesData) : Option CasesData :=
  cached

/-! ### Cases page filter state (`CasesPage.tsx`, `CaseFilters.tsx`) -/

/-- The `filters` state of `CasesPage` (`useState` initializer fields). -/
structure CaseFilters where
  status : String
  case_type : String
  search : String
  page : Nat
  limit : Nat
deriving DecidableEq, Repr

/-- The initial `filters` state of `CasesPage`. -/
def initialCaseFilters : CaseFilters :=
  { status := "", case_type := "", search := "", page := 1, limit := 20 }

/-- A partial filter object passed to `handleFilterChange`.
`CaseFilters.tsx` always sends exactly one of `search`, `status`,
`case_type`. -/
structure CaseFilterUpdate where
  status : Option String
  case_type : Option String
  search : Option String
deriving DecidableEq, Repr

/-- `handleFilterChange` in `CasesPage.tsx`:
`setFilters(prev => ({ ...prev, ...newFilters, page: 1 }))`. -/
def handleFilterChange (prev : CaseFilters) (u : CaseFilterUpdate) : CaseFilters :=
  { status := u.status.getD prev.status
    case_type := u.case_type.getD prev.case_type
    search := u.search.getD prev.search
    page := 1
    limit := prev.limit }

/-- The three filter inputs rendered by `CaseFilters.tsx`. -/
inductive CaseFilterField where
  | search
  | status
  | caseType
deriving DecidableEq, Repr

/-- Current value of one filter input. -/
def caseFilterGet (prev : CaseFilters) : CaseFilterField → String
  | .search => prev.search
  | .status => prev.status
  | .caseType => prev.case_type

/-- The one-field object each `onChange` handler in `CaseFilters.tsx`
passes to `onFilterChange` (e.g. `{ search: e.target.value }`). -/
def singleUpdate : CaseFilterField → String → CaseFilterUpdate
  | .search, v => ⟨none, none, some v⟩
  | .status, v => ⟨some v, none, none⟩
  | .caseType, v => ⟨none, some v, none⟩

/-- The react-query key of the cases list query:
`['cases', filters]`. -/
def casesQueryKey (f : CaseFilters) : String × CaseFilters :=
  ("cases", f)

/-! ### Documents page filter state (`DocumentsPage.tsx`, `DocumentList.tsx`) -/

/-- The `filters` state of `DocumentsPage`. -/
structure DocumentFilters where
  search : String
  document_type : String
  status : String
  page : Nat
  limit : Nat
deriving DecidableEq, Repr

/-- The initial `filters` state of `DocumentsPage`. -/
def initialDocumentFilters : DocumentFilters :=
  { search := "", document_type := "", status := "", page := 1, limit := 20 }

/-- The three filter inputs rendered by `DocumentList.tsx`. -/
inductive DocFilterField where
  | search
  | documentType
  | status
deriving DecidableEq, Repr

/-- Current value of one document filter input. -/
def docFilterGet (prev : DocumentFilters) : DocFilterField → String
  | .search => prev.search
  | .documentType => prev.document_type
  | .status => prev.status

/-- Each `onChange` handler in `DocumentList.tsx` calls
`onFilterChange({ ...filters, <field>: e.target.value, page: 1 })`,
and `DocumentsPage` passes `setFilters` as `onFilterChange`. -/
def docFilterChange (prev : DocumentFilters) : DocFilterField → String → DocumentFilters
  | .search, v => { prev with search := v, page := 1 }
  | .documentType, v => { prev with document_type := v, page := 1 }
  | .status, v => { prev with status := v, page := 1 }

/-- The react-query key of the documents list query:
`['documents', filters]`. -/
def documentsQueryKey (f : DocumentFilters) : String × DocumentFilters :=
  ("documents", f)

/-! ### New-case form (`NewCaseForm` component)

Monetary amounts live in the form state as numbers; they are modelled
as `Rat` (JS floating point itself is out of scope; the arithmetic the
component performs — `parseFloat` and `* 100` — is embedded exactly on
rationals). -/

/-- Does `small` occur as a contiguous run at the head of `cs`? -/
def listStartsWith : List Char → List Char → Bool
  | _, [] => true
  | [], _ :: _ => false
  | c :: cs, d :: ds => c = d && listStartsWith cs ds

/-- Does `sub` occur as a contiguous run anywhere in `cs`?  Used to
embed JavaScript `String.prototype.includes`. -/
def listContainsSub : List Char → List Char → Bool
  | [], sub => sub.isEmpty
  | c :: cs, sub => listStartsWith (c :: cs) sub || listContainsSub cs sub

/-- JavaScript `name.includes(sub)`. -/
def strContainsSub (s sub : String) : Bool :=
  listContainsSub s.toList sub.toList

/-- The dispatch test in `handleChange`:
`name.includes('amount') || name.includes('value')`. -/
def isNumericFieldName (name : String) : Bool :=
  strContainsSub name "amount" || strContainsSub name "value"

/-- Longest run of decimal digits at the head of `cs`, and the rest. -/
def takeDigits (cs : List Char) : List Char × List Char :=
  cs.span fun c => c.isDigit

/-- Value of a digit run. -/
def digitsToNat (ds : List Char) : Nat :=
  ds.foldl (fun a c => a * 10 + (c.toNat - 48)) 0

/-- `parseFloat` on a whitespace-stripped character list: an optional
sign, an integer part, an optional fractional part; `none` plays the
role of `NaN` (no numeric prefix at all).  Exponent suffixes, which no
form input here produces, are not modelled. -/
def parseFloatCore (cs : List Char) : Option Rat :=
  let sign : Rat := match cs with
    | '-' :: _ => -1
    | _ => 1
  let rest : List Char := match cs with
    | '-' :: t => t
    | '+' :: t => t
    | t => t
  let ip := takeDigits rest
  match ip.2 with
  | '.' :: t =>
      let fp := takeDigits t
      if ip.1.isEmpty && fp.1.isEmpty then none
      else some (sign * ((digitsToNat ip.1 : Rat) +
        (digitsToNat fp.1 : Rat) / ((10 : Rat) ^ fp.1.length)))
  | _ => if ip.1.isEmpty then none else some (sign * (digitsToNat ip.1 : Rat))

/-- JavaScript `parseFloat(value)` (leading whitespace skipped). -/
def parseFloatJs (s : String) : Option Rat :=
  parseFloatCore (s.toList.dropWhile fun c => c.isWhitespace)

/-- `parseFloat(value) || 0`: `NaN` is coerced to `0` (and a parsed `0`
stays `0`, so `getD` is exact). -/
def jsNumOr0 (s : String) : Rat :=
  (parseFloatJs s).getD 0

/-- The `CaseFormData` state of `NewCaseForm`. -/
structure CaseFormData where
  title : String
  description : String
  plaintiff_id : String
  law_firm_id : String
  case_type : String
  incident_date : String
  incident_location : String
  incident_description : String
  estimated_case_value : Rat
  funding_amount_requested : Rat
  priority : String
  notes : String
deriving DecidableEq, Repr

/-- The initial `useState` value of the form. -/
def initialCaseForm : CaseFormData :=
  { title := "", description := "", plaintiff_id := "", law_firm_id := "",
    case_type := "auto_accident", incident_date := "", incident_location := "",
    incident_description := "", estimated_case_value := 0,
    funding_amount_requested := 0, priority := "normal", notes := "" }

/-- The form inputs, by their `name` attribute. -/
inductive CaseFormField where
  | title
  | description
  | plaintiffId
  | lawFirmId
  | caseType
  | incidentDate
  | incidentLocation
  | incidentDescription
  | estimatedCaseValue
  | fundingAmountRequested
  | priority
  | notes
deriving DecidableEq, Repr

/-- The `name` attribute string of each input. -/
def CaseFormField.fieldName : CaseFormField → String
  | .title => "title"
  | .description => "description"
  | .plaintiffId => "plaintiff_id"
  | .lawFirmId => "law_firm_id"
  | .caseType => "case_type"
  | .incidentDate => "incident_date"
  | .incidentLocation => "incident_location"
  | .incidentDescription => "incident_description"
  | .estimatedCaseValue => "estimated_case_value"
  | .fundingAmountRequested => "funding_amount_requested"
  | .priority => "priority"
  | .notes => "notes"

/-- `handleChange`: sets `formData[name]` to `parseFloat(value) || 0`
for the two inputs whose names contain `amount`/`value`, and to the raw
string otherwise (see `handleChange_matches_name_dispatch` for the
correspondence with the `name.includes` test). -/
def handleChange (d : CaseFormData) : CaseFormField → String → CaseFormData
  | .title, v => { d with title := v }
  | .description, v => { d with description := v }
  | .plaintiffId, v => { d with plaintiff_id := v }
  | .lawFirmId, v => { d with law_firm_id := v }
  | .caseType, v => { d with case_type := v }
  | .incidentDate, v => { d with incident_date := v }
  | .incidentLocation, v => { d with incident_location := v }
  | .incidentDescription, v => { d with incident_description := v }
  | .estimatedCaseValue, v => { d with estimated_case_value := jsNumOr0 v }
  | .fundingAmountRequested, v => { d with funding_amount_requested := jsNumOr0 v }
  | .priority, v => { d with priority := v }
  | .notes, v => { d with notes := v }

/-- The body of the `POST /cases` request built by `createCaseMutation`:
the form data spread with both monetary fields multiplied by 100
("Convert to cents"). -/
def casePostBody (d : CaseFormData) : CaseFormData :=
  { d with estimated_case_value := d.estimated_case_value * 100,
           funding_amount_requested := d.funding_amount_requested * 100 }

/-- How a user-facing message is delivered. -/
inductive NotificationChannel where
  | toast
  | inlineText
deriving DecidableEq, Repr

/-- A user-facing message together with its delivery channel.  The
validation branch of `handleSubmit` calls `toast.error(...)` from
`react-hot-toast`; the component renders no inline error element. -/
structure FormNotification where
  channel : NotificationChannel
  message : String
deriving DecidableEq, Repr

/-- Outcome of `handleSubmit`: either validation blocks the submission
(no mutation is triggered, so no network request is issued) or the
mutation fires with the given POST body. -/
inductive SubmitOutcome where
  | blocked (n : FormNotification)
  | submitted (body : CaseFormData)
deriving DecidableEq, Repr

/-- The message of the validation toast in `handleSubmit`. -/
def requiredFieldsMsg : String := "Please fill in all required fields"

/-- `handleSubmit` in `NewCaseForm`: if any of `title`, `plaintiff_id`,
`law_firm_id` is falsy (empty string), show the validation toast and
return; otherwise run `createCaseMutation.mutate(formData)`, whose
mutation function posts `casePostBody formData`. -/
def handleSubmit (d : CaseFormData) : SubmitOutcome :=
  if d.title = "" ∨ d.plaintiff_id = "" ∨ d.law_firm_id = "" then
    .blocked ⟨.toast, requiredFieldsMsg⟩
  else
    .submitted (casePostBody d)

/-! ### Document upload (`DocumentUpload` in `DocumentPreview.tsx`,
`DocumentsPage.tsx`) -/

/-- A file selected in the dropzone, identified by its name. -/
structure UploadFile where
  name : String
deriving DecidableEq, Repr

/-- One entry appended to the multipart `FormData` body. -/
inductive MultipartField where
  | file (f : UploadFile)
  | caseIdField (v : String)
deriving DecidableEq, Repr

/-- The multipart request built per file in `handleUpload`:
`formData.append('file', file)` always, then
`formData.append('case_id', caseId)` only when `caseId` is truthy
(non-empty). -/
def uploadRequestFields (caseId : String) (f : UploadFile) : List MultipartField :=
  [MultipartField.file f] ++
    (if caseId = "" then [] else [MultipartField.caseIdField caseId])

/-- Observable events of one run of `handleUpload`, in order.  The
`for (const file of files)` loop awaits each `api.post` before starting
the next, so each request's start/completion pair precedes the next
request's start.  The success toast carries the file count (the source
renders it as `` `${files.length} document(s) uploaded successfully` ``). -/
inductive UploadEvent where
  | toastError (m : String)
  | requestStart (fields : List MultipartField)
  | requestComplete (fields : List MultipartField)
  | toastSuccess (fileCount : Nat)
  | clearFiles
  | clearCaseId
  | uploadSuccessCallback
deriving DecidableEq, Repr

/-- The event trace of `handleUpload` when every request succeeds:
guard clause for an empty selection, then one sequential
request-start/request-complete pair per file, then the success toast,
state resets, and a single `onUploadSuccess()` call. -/
def handleUploadTrace (files : List UploadFile) (caseId : String) : List UploadEvent :=
  if files.isEmpty then
    [UploadEvent.toastError "Please select files to upload"]
  else
    (files.flatMap fun f =>
      [UploadEvent.requestStart (uploadRequestFields caseId f),
       UploadEvent.requestComplete (uploadRequestFields caseId f)]) ++
    [UploadEvent.toastSuccess files.length,
     UploadEvent.clearFiles, UploadEvent.clearCaseId,
     UploadEvent.uploadSuccessCallback]

/-- Effects the `DocumentsPage` controller runs. -/
inductive PageEffect where
  | refetchDocuments
deriving DecidableEq, Repr

/-- `handleUploadSuccess` in `DocumentsPage.tsx` calls `refetch()`
once. -/
def handleUploadSuccess : List PageEffect :=
  [PageEffect.refetchDocuments]

/-- Is an upload event a request start? -/
def UploadEvent.isRequestStart : UploadEvent → Bool
  | .requestStart _ => true
  | _ => false

/-- The page effects triggered over a whole upload run: each
`uploadSuccessCallback` event expands to `handleUploadSuccess`. -/
def uploadPageEffects (files : List UploadFile) (caseId : String) : List PageEffect :=
  (handleUploadTrace files caseId).flatMap fun e =>
    match e with
    | .uploadSuccessCallback => handleUploadSuccess
    | _ => []

/-! ### Realtime channel variants

The repository carries two implementations of `WebSocketService`, both
exporting `wsService` and both reached from a dashboard page's
mount/unmount effect:
* `src/frontend/src/services/websocket.ts` — socket.io based;
* `src/unnamed/part_015` — native `WebSocket` based, with an
  unconditional early `return` ("WebSocket disabled for simple
  backend") before any connection code. -/

/-- Network-visible effects of a `connect()` call (console logs are
kept for fidelity; they produce no network traffic). -/
inductive WsEffect where
  | logMsg (m : String)
  | ioConnect (token : Option String)
  | wsCreate (url : String)
deriving DecidableEq, Repr

/-- Does the effect open (or attempt to open) a connection? -/
def WsEffect.isConnectAttempt : WsEffect → Bool
  | .ioConnect _ => true
  | .wsCreate _ => true
  | .logMsg _ => false

/-- `connect()` of the socket.io variant
(`src/frontend/src/services/websocket.ts`): unless a socket is already
connected, it calls `io('/', { auth: { token }, ... })` with the stored
token, which initiates a connection. -/
def socketIoConnect (alreadyConnected : Bool) (storedToken : Option String) :
    List WsEffect :=
  if alreadyConnected then [] else [WsEffect.ioConnect storedToken]

/-- `connect()` of the native-WebSocket variant (`src/unnamed/part_015`):
returns if the socket is already open; returns after a log when no
token is stored; otherwise logs "WebSocket disabled for simple backend"
and returns before the `new WebSocket(...)` code, which is
unreachable. -/
def nativeWsConnect (alreadyOpen : Bool) (storedToken : Option String) :
    List WsEffect :=
  if alreadyOpen then []
  else
    match storedToken with
    | none =>
        [WsEffect.logMsg
          "No auth token found for WebSocket connection - skipping WebSocket"]
    | some _ => [WsEffect.logMsg "WebSocket disabled for simple backend"]

/-! ### Settings service (`src/frontend/src/services/settingsService.ts`) -/

/-- Plain JSON values, used for setting values, validation rules, UI
options, and the backend's response bodies. -/
inductive Json where
  | null
  | bool (b : Bool)
  | num (n : Int)
  | str (s : String)
  | arr (elems : List Json)
  | obj (fields : List (String × Json))
deriving Repr

/-- Keys of a top-level JSON object (empty for non-objects). -/
def Json.topKeys : Json → List String
  | .obj fs => fs.map Prod.fst
  | _ => []

/-- Top-level field lookup in a JSON object. -/
def Json.get : Json → String → Option Json
  | .obj fs, k => fs.lookup k
  | _, _ => none

/-- A `Setting` record (`settingsService.ts`). -/
structure Setting where
  id : Int
  category_id : Int
  key : String
  display_name : String
  description : Option String
  data_type : String
  default_value : Option String
  current_value : Option String
  value : Json
  validation_rules : Option Json
  ui_component : Option String
  ui_options : Option Json
  is_sensitive : Bool
  is_readonly : Bool
  is_required : Bool
  requires_restart : Bool
  sort_order : Int
  is_active : Bool

/-- A `SettingsCategory` record (`settingsService.ts`). -/
structure SettingsCategory where
  id : Int
  name : String
  display_name : String
  description : Option String
  icon : Option String
  sort_order : Int
  is_active : Bool
  settings : List Setting

/-- `getMockCategories()`: the static fallback content, transcribed
field by field from the source. -/
def getMockCategories : List SettingsCategory :=
  [ { id := 1, name := "system", display_name := "System Settings",
      description := some "Core system configuration and performance settings",
      icon := some "cog", sort_order := 1, is_active := true,
      settings :=
        [ { id := 1, category_id := 1, key := "log_level",
            display_name := "Log Level",
            description := some "Minimum log level for system logging",
            data_type := "select", default_value := some "INFO",
            current_value := some "INFO", value := Json.str "INFO",
            validation_rules := some (Json.obj
              [("options", Json.arr [Json.str "DEBUG", Json.str "INFO",
                Json.str "WARNING", Json.str "ERROR", Json.str "CRITICAL"])]),
            ui_component := some "select",
            ui_options := some (Json.obj
              [("options", Json.arr [Json.str "DEBUG", Json.str "INFO",
                Json.str "WARNING", Json.str "ERROR", Json.str "CRITICAL"])]),
            is_sensitive := false, is_readonly := false, is_required := true,
            requires_restart := false, sort_order := 1, is_active := true },
          { id := 2, category_id := 1, key := "enable_metrics",
            display_name := "Enable Metrics Collection",
            description := some "Collect system performance metrics",
            data_type := "boolean", default_value := some "true",
            current_value := some "true", value := Json.bool true,
            validation_rules := some (Json.obj []),
            ui_component := some "checkbox", ui_options := some (Json.obj []),
            is_sensitive := false, is_readonly := false, is_required := false,
            requires_restart := false, sort_order := 2, is_active := true } ] },
    { id := 2, name := "agents", display_name := "Agent Management",
      description := some "AI agent configuration and control settings",
      icon := some "beaker", sort_order := 2, is_active := true,
      settings :=
        [ { id := 3, category_id := 2, key := "agent_health_check_interval",
            display_name := "Agent Health Check Interval (seconds)",
            description := some "How often to check agent health status",
            data_type := "integer", default_value := some "30",
            current_value := some "30", value := Json.num 30,
            validation_rules := some (Json.obj
              [("min", Json.num 10), ("max", Json.num 300)]),
            ui_component := some "input", ui_options := some (Json.obj []),
            is_sensitive := false, is_readonly := false, is_required := true,
            requires_restart := true, sort_order := 1, is_active := true } ] } ]

/-- `getCategories(includeInactive)`: returns the fetched categories on
success and falls back to `getMockCategories()` on any request error
(the `catch` swallows the error after logging it). -/
def getCategories (includeInactive : Bool)
    (fetched : Except ReqError (List SettingsCategory)) : List SettingsCategory :=
  match includeInactive, fetched with
  | _, .ok cats => cats
  | _, .error _ => getMockCategories

/-- The fabricated success body returned by `updateSetting`'s `catch`
branch. -/
def mockUpdateResponse (settingId : Int) : Json :=
  Json.obj
    [("success", Json.bool true),
     ("message", Json.str "Setting updated successfully (mock)"),
     ("data", Json.obj
        [("setting_id", Json.num settingId),
         ("requires_restart", Json.bool false)])]

/-- `updateSetting(settingId, ...)`: returns the server's response body
on success and the fabricated success body on any request error — the
method never rejects. -/
def updateSetting (settingId : Int) (putResult : Except ReqError Json) : Json :=
  match putResult with
  | .ok body => body
  | .error _ => mockUpdateResponse settingId

/-- The response shape asserted by the claim under test: a flat object
with `requires_restart` at top level (for comparison against
`mockUpdateResponse`; this definition follows the claim's words, not
the source). -/
def claimedUpdateResponse : Json :=
  Json.obj
    [("success", Json.bool true),
     ("message", Json.str "Setting updated successfully (mock)"),
     ("requires_restart", Json.bool false)]

end RonCrm

namespace RonCrm

/-- C1: a 401 response makes the interceptor remove the stored auth
token, delete the default Authorization header, and navigate to the
login screen, in that order, independently of which request produced
the error. -/
theorem c1_unauthorized_clears_session_and_redirects
    (e : ReqError) (r : HttpResp) (hr : e.response = some r)
    (h401 : r.status = 401) :
    (responseInterceptor e).actions =
      [SessionAction.removeStoredToken, SessionAction.deleteAuthHeader,
       SessionAction.navigateToLogin] := by
  simp [responseInterceptor, hr, h401]

/-- Witness for C1 at the concrete error `401` with no detail. -/
theorem c1_witness :
    (responseInterceptor ⟨some ⟨401, none⟩⟩).actions =
      [SessionAction.removeStoredToken, SessionAction.deleteAuthHeader,
       SessionAction.navigateToLogin] :=
  c1_unauthorized_clears_session_and_redirects ⟨some ⟨401, none⟩⟩ ⟨401, none⟩ rfl rfl

/-- C2 counterexample: a 401 error is handled by the interceptor but
shows zero toasts, so "exactly one toast for every request error" fails
at the concrete input `status = 401`. -/
theorem c2_counterexample_401_shows_no_toast :
    ¬ (responseInterceptor ⟨some ⟨401, none⟩⟩).toasts.length = 1 := by
  decide

/-- C2 (amended): every error whose status is not 401 shows exactly one
toast; a 401 shows none; any 5xx (in particular a 500 on `/cases`)
shows exactly the single toast "Server error. Please try again later.";
and a failed refetch leaves the cached cases rendered unchanged. -/
theorem c2_toast_per_error_amended
    (d : Option String) (s : Nat) (cached : Option CasesData) :
    (responseInterceptor ⟨some ⟨401, d⟩⟩).toasts = [] ∧
    (500 ≤ s → (responseInterceptor ⟨some ⟨s, d⟩⟩).toasts = [serverErrorToast]) ∧
    (s ≠ 401 → (responseInterceptor ⟨some ⟨s, d⟩⟩).toasts.length = 1) ∧
    (responseInterceptor ⟨none⟩).toasts.length = 1 ∧
    serverErrorToast = "Server error. Please try again later." ∧
    renderedCases (queryStateAfterError cached) = renderedCases cached := by
  refine ⟨by simp [responseInterceptor], ?_, ?_, by simp [responseInterceptor], rfl, rfl⟩
  · intro h500
    have hne : ¬ s = 401 := by omega
    simp [responseInterceptor, hne, h500]
  · intro hne
    by_cases h500 : 500 ≤ s
    · simp [responseInterceptor, hne, h500]
    · cases d with
      | none => simp [responseInterceptor, hne, h500]
      | some dd => simp [responseInterceptor, hne, h500]

/-- Witness for C2 (amended) at status 500, no detail, one cached case. -/
theorem c2_witness :
    (responseInterceptor ⟨some ⟨401, none⟩⟩).toasts = [] ∧
    (responseInterceptor ⟨some ⟨500, none⟩⟩).toasts = [serverErrorToast] ∧
    (responseInterceptor ⟨some ⟨500, none⟩⟩).toasts.length = 1 ∧
    renderedCases (queryStateAfterError (some ⟨["case-1"], 1⟩)) =
      renderedCases (some ⟨["case-1"], 1⟩) := by
  obtain ⟨h1, h2, h3, _, _, h6⟩ :=
    c2_toast_per_error_amended none 500 (some ⟨["case-1"], 1⟩)
  exact ⟨h1, h2 (by decide), h3 (by decide), h6⟩

/-- C3 counterexample: a request failure with no HTTP response falls to
the generic fallback toast "An unexpected error occurred", which is a
different toast from the 5xx toast "Server error. Please try again
later." — the two failure kinds are distinguishable to the user. -/
theorem c3_counterexample_network_toast_differs :
    (responseInterceptor ⟨none⟩).toasts = [genericErrorToast] ∧
    (responseInterceptor ⟨some ⟨500, none⟩⟩).toasts = [serverErrorToast] ∧
    genericErrorToast ≠ serverErrorToast := by
  refine ⟨rfl, by decide, by decide⟩

/-- C3 (amended): a failure with no response shows exactly one generic
toast, "An unexpected error occurred" — a generic message, but not the
same toast text as the 5xx server-fault branch. -/
theorem c3_network_error_generic_toast_amended :
    (responseInterceptor ⟨none⟩).toasts = ["An unexpected error occurred"] ∧
    (responseInterceptor ⟨none⟩).actions = [] ∧
    (responseInterceptor ⟨none⟩).rejected = true := by
  exact ⟨rfl, rfl, rfl⟩

/-- C4: on both the cases and the documents screens, changing any of
the three filter inputs (search text, status, type) to a value
different from its current one yields a filter state with `page = 1`
and a query cache key different from the prior key. -/
theorem c4_filter_change_resets_page_and_changes_key :
    (∀ (prev : CaseFilters) (fld : CaseFilterField) (v : String),
      v ≠ caseFilterGet prev fld →
      (handleFilterChange prev (singleUpdate fld v)).page = 1 ∧
      casesQueryKey (handleFilterChange prev (singleUpdate fld v)) ≠
        casesQueryKey prev) ∧
    (∀ (prev : DocumentFilters) (fld : DocFilterField) (v : String),
      v ≠ docFilterGet prev fld →
      (docFilterChange prev fld v).page = 1 ∧
      documentsQueryKey (docFilterChange prev fld v) ≠
        documentsQueryKey prev) := by
  constructor
  · intro prev fld v hne
    cases fld with
    | search =>
        refine ⟨rfl, fun hk => hne ?_⟩
        have h2 := congrArg (fun p => CaseFilters.search p.2) hk
        simpa [casesQueryKey, handleFilterChange, singleUpdate] using h2
    | status =>
        refine ⟨rfl, fun hk => hne ?_⟩
        have h2 := congrArg (fun p => CaseFilters.status p.2) hk
        simpa [casesQueryKey, handleFilterChange, singleUpdate] using h2
    | caseType =>
        refine ⟨rfl, fun hk => hne ?_⟩
        have h2 := congrArg (fun p => CaseFilters.case_type p.2) hk
        simpa [casesQueryKey, handleFilterChange, singleUpdate] using h2
  · intro prev fld v hne
    cases fld with
    | search =>
        refine ⟨rfl, fun hk => hne ?_⟩
        have h2 := congrArg (fun p => DocumentFilters.search p.2) hk
        simpa [documentsQueryKey, docFilterChange] using h2
    | documentType =>
        refine ⟨rfl, fun hk => hne ?_⟩
        have h2 := congrArg (fun p => DocumentFilters.document_type p.2) hk
        simpa [documentsQueryKey, docFilterChange] using h2
    | status =>
        refine ⟨rfl, fun hk => hne ?_⟩
        have h2 := congrArg (fun p => DocumentFilters.status p.2) hk
        simpa [documentsQueryKey, docFilterChange] using h2

/-- Sanity check tying the typed `handleChange` to the source's
string-based dispatch: `name.includes('amount') || name.includes('value')`
holds exactly for the two monetary inputs. -/
theorem handleChange_matches_name_dispatch (f : CaseFormField) :
    isNumericFieldName f.fieldName = true ↔
      f = CaseFormField.estimatedCaseValue ∨
      f = CaseFormField.fundingAmountRequested := by
  cases f <;> decide

/-- C5 counterexample: with `plaintiff_id` empty the submission is
blocked with the message "Please fill in all required fields", but the
message is delivered through `toast.error` (a floating toast), not
rendered inline — refuting the "shown inline" part of the claim. -/
theorem c5_counterexample_message_is_toast_not_inline :
    handleSubmit { initialCaseForm with
        title := "Rear-end collision", law_firm_id := "lf-1" } =
      SubmitOutcome.blocked ⟨.toast, "Please fill in all required fields"⟩ ∧
    NotificationChannel.toast ≠ NotificationChannel.inlineText := by
  exact ⟨by decide, by decide⟩

/-- C5 (amended): submitting the form with an empty `plaintiff_id` is
blocked by the client-side check — the create-case mutation is never
triggered, so no network call is made — and the message "Please fill in
all required fields" is shown as a toast notification. -/
theorem c5_empty_plaintiff_blocks_submission_amended
    (d : CaseFormData) (hp : d.plaintiff_id = "") :
    handleSubmit d = SubmitOutcome.blocked ⟨.toast, requiredFieldsMsg⟩ ∧
    ∀ body, handleSubmit d ≠ SubmitOutcome.submitted body := by
  have hcond : d.title = "" ∨ d.plaintiff_id = "" ∨ d.law_firm_id = "" :=
    Or.inr (Or.inl hp)
  have h1 : handleSubmit d = SubmitOutcome.blocked ⟨.toast, requiredFieldsMsg⟩ := by
    unfold handleSubmit
    exact if_pos hcond
  refine ⟨h1, fun body h => ?_⟩
  rw [h1] at h
  exact SubmitOutcome.noConfusion h

/-- Witness for C5 (amended): a form with title and law firm filled in
but `plaintiff_id` left empty. -/
theorem c5_witness :
    handleSubmit { initialCaseForm with title := "T", law_firm_id := "lf-1" } =
      SubmitOutcome.blocked ⟨.toast, requiredFieldsMsg⟩ ∧
    ∀ body,
      handleSubmit { initialCaseForm with title := "T", law_firm_id := "lf-1" } ≠
        SubmitOutcome.submitted body :=
  c5_empty_plaintiff_blocks_submission_amended
    { initialCaseForm with title := "T", law_firm_id := "lf-1" } rfl

/-- C10: the POST body scales both monetary fields by exactly 100
(dollars to cents) and leaves every other field unchanged, and
`handleChange` coerces a non-numeric amount entry to 0 before any
scaling can happen. -/
theorem c10_post_body_scales_amounts_by_100
    (d : CaseFormData) (s : String) (hs : parseFloatJs s = none) :
    (casePostBody d).estimated_case_value = 100 * d.estimated_case_value ∧
    (casePostBody d).funding_amount_requested = 100 * d.funding_amount_requested ∧
    (casePostBody d).title = d.title ∧
    (casePostBody d).description = d.description ∧
    (casePostBody d).plaintiff_id = d.plaintiff_id ∧
    (casePostBody d).law_firm_id = d.law_firm_id ∧
    (casePostBody d).case_type = d.case_type ∧
    (casePostBody d).incident_date = d.incident_date ∧
    (casePostBody d).incident_location = d.incident_location ∧
    (casePostBody d).incident_description = d.incident_description ∧
    (casePostBody d).priority = d.priority ∧
    (casePostBody d).notes = d.notes ∧
    (handleChange d .estimatedCaseValue s).estimated_case_value = 0 ∧
    (handleChange d .fundingAmountRequested s).funding_amount_requested = 0 := by
  refine ⟨by simp [casePostBody, mul_comm], by simp [casePostBody, mul_comm],
    rfl, rfl, rfl, rfl, rfl, rfl, rfl, rfl, rfl, rfl, ?_, ?_⟩
  · simp [handleChange, jsNumOr0, hs]
  · simp [handleChange, jsNumOr0, hs]

/-- Witness for C10 at the non-numeric entry "abc". -/
theorem c10_witness :
    (casePostBody initialCaseForm).estimated_case_value =
      100 * initialCaseForm.estimated_case_value ∧
    (handleChange initialCaseForm .estimatedCaseValue "abc").estimated_case_value = 0 ∧
    (handleChange initialCaseForm .fundingAmountRequested "abc").funding_amount_requested = 0 := by
  obtain ⟨h1, _, _, _, _, _, _, _, _, _, _, _, h13, h14⟩ :=
    c10_post_body_scales_amounts_by_100 initialCaseForm "abc" (by decide)
  exact ⟨h1, h13, h14⟩

/-- Witness for C4: changing the status filter from "" (All) to
"active" on each page's initial filter state. -/
theorem c4_witness :
    ((handleFilterChange initialCaseFilters (singleUpdate .status "active")).page = 1 ∧
      casesQueryKey (handleFilterChange initialCaseFilters (singleUpdate .status "active")) ≠
        casesQueryKey initialCaseFilters) ∧
    ((docFilterChange initialDocumentFilters .status "processed").page = 1 ∧
      documentsQueryKey (docFilterChange initialDocumentFilters .status "processed") ≠
        documentsQueryKey initialDocumentFilters) :=
  ⟨c4_filter_change_resets_page_and_changes_key.1 initialCaseFilters .status "active"
      (by decide),
    c4_filter_change_resets_page_and_changes_key.2 initialDocumentFilters .status "processed"
      (by decide)⟩

/-- C6: uploading two selected files issues exactly two multipart
requests, strictly sequentially (the second starts only after the first
completes); each request carries a `file` field and, when a case id was
entered, a `case_id` field; and after both succeed the document list is
refetched exactly once. -/
theorem c6_two_files_two_sequential_requests_one_refetch
    (f1 f2 : UploadFile) (caseId : String) :
    handleUploadTrace [f1, f2] caseId =
      [UploadEvent.requestStart (uploadRequestFields caseId f1),
       UploadEvent.requestComplete (uploadRequestFields caseId f1),
       UploadEvent.requestStart (uploadRequestFields caseId f2),
       UploadEvent.requestComplete (uploadRequestFields caseId f2),
       UploadEvent.toastSuccess 2,
       UploadEvent.clearFiles, UploadEvent.clearCaseId,
       UploadEvent.uploadSuccessCallback] ∧
    ((handleUploadTrace [f1, f2] caseId).filter UploadEvent.isRequestStart).length = 2 ∧
    uploadRequestFields caseId f1 =
      [MultipartField.file f1] ++
        (if caseId = "" then [] else [MultipartField.caseIdField caseId]) ∧
    uploadRequestFields caseId f2 =
      [MultipartField.file f2] ++
        (if caseId = "" then [] else [MultipartField.caseIdField caseId]) ∧
    uploadPageEffects [f1, f2] caseId = [PageEffect.refetchDocuments] := by
  refine ⟨?_, ?_, rfl, rfl, ?_⟩
  · simp [handleUploadTrace]
  · simp [handleUploadTrace, UploadEvent.isRequestStart, List.filter]
  · simp [uploadPageEffects, handleUploadTrace, handleUploadSuccess]

/-- Witness for C6 at two concrete files and a concrete case id. -/
theorem c6_witness :
    ((handleUploadTrace [⟨"police-report.pdf"⟩, ⟨"medical.pdf"⟩] "case-7").filter
        UploadEvent.isRequestStart).length = 2 ∧
    uploadRequestFields "case-7" ⟨"police-report.pdf"⟩ =
      [MultipartField.file ⟨"police-report.pdf"⟩,
       MultipartField.caseIdField "case-7"] ∧
    uploadPageEffects [⟨"police-report.pdf"⟩, ⟨"medical.pdf"⟩] "case-7" =
      [PageEffect.refetchDocuments] := by
  obtain ⟨_, h2, h3, _, h5⟩ :=
    c6_two_files_two_sequential_requests_one_refetch
      ⟨"police-report.pdf"⟩ ⟨"medical.pdf"⟩ "case-7"
  refine ⟨h2, ?_, h5⟩
  rw [h3]
  decide

/-- C7 counterexample: `connect()` of the socket.io service at
`src/frontend/src/services/websocket.ts` — the one the named
`DashboardPage.tsx` mounts — does produce a connection attempt when no
socket is connected yet, so "connect() is a no-op for every call" fails
for that service. -/
theorem c7_counterexample_socketio_connects :
    (socketIoConnect false none).filter WsEffect.isConnectAttempt ≠ [] := by
  decide

/-- C7 (amended): in the native-WebSocket variant of the service
(`src/unnamed/part_015`) `connect()` is short-circuited — it never
attempts a connection, for every prior socket state and regardless of
the stored token — while the socket.io variant in
`src/frontend/src/services/websocket.ts` initiates a connection
whenever no socket is already connected. -/
theorem c7_native_connect_is_noop_amended
    (alreadyOpen : Bool) (storedToken : Option String) :
    (nativeWsConnect alreadyOpen storedToken).filter WsEffect.isConnectAttempt = [] ∧
    socketIoConnect false storedToken = [WsEffect.ioConnect storedToken] := by
  constructor
  · cases alreadyOpen <;> cases storedToken <;> rfl
  · rfl

/-- Witness for C7 at a concrete stored token and closed socket. -/
theorem c7_witness :
    (nativeWsConnect false (some "tok-123")).filter WsEffect.isConnectAttempt = [] ∧
    socketIoConnect false (some "tok-123") = [WsEffect.ioConnect (some "tok-123")] :=
  c7_native_connect_is_noop_amended false (some "tok-123")

/-- C8: `getCategories` swallows any request error and returns the
static mock list, whose categories are named `system` and `agents` and
each carry a non-empty settings list. -/
theorem c8_getCategories_falls_back_to_mock
    (includeInactive : Bool) (e : ReqError) :
    getCategories includeInactive (Except.error e) = getMockCategories ∧
    getMockCategories.map SettingsCategory.name = ["system", "agents"] ∧
    getMockCategories.all (fun c => !c.settings.isEmpty) = true := by
  exact ⟨rfl, rfl, rfl⟩

/-- Witness for C8 at a concrete network failure (a 500 response). -/
theorem c8_witness :
    getCategories false (Except.error ⟨some ⟨500, none⟩⟩) = getMockCategories ∧
    getMockCategories.map SettingsCategory.name = ["system", "agents"] :=
  ⟨(c8_getCategories_falls_back_to_mock false ⟨some ⟨500, none⟩⟩).1,
    (c8_getCategories_falls_back_to_mock false ⟨some ⟨500, none⟩⟩).2.1⟩

/-- C9 counterexample: the fabricated response of `updateSetting` does
not match the shape the claim states — it has no top-level
`requires_restart` field; that flag (together with `setting_id`) sits
inside a nested `data` object. -/
theorem c9_counterexample_mock_response_shape :
    updateSetting 1 (Except.error ⟨none⟩) ≠ claimedUpdateResponse ∧
    (updateSetting 1 (Except.error ⟨none⟩)).get "requires_restart" = none := by
  constructor
  · intro h
    have hk := congrArg Json.topKeys h
    simp [updateSetting, mockUpdateResponse, claimedUpdateResponse,
      Json.topKeys] at hk
  · rfl

/-- C9 (amended): `updateSetting` never rejects — on any failed PUT it
returns the fabricated body `{ success: true, message: "Setting updated
successfully (mock)", data: { setting_id, requires_restart: false } }`,
a success-shaped value indistinguishable in kind from a real success. -/
theorem c9_updateSetting_never_rejects_amended
    (settingId : Int) (e : ReqError) :
    updateSetting settingId (Except.error e) = mockUpdateResponse settingId ∧
    (updateSetting settingId (Except.error e)).get "success" =
      some (Json.bool true) ∧
    (updateSetting settingId (Except.error e)).get "message" =
      some (Json.str "Setting updated successfully (mock)") ∧
    ((updateSetting settingId (Except.error e)).get "data").bind
      (fun d => d.get "requires_restart") = some (Json.bool false) ∧
    (updateSetting settingId (Except.error e)).get "requires_restart" = none := by
  exact ⟨rfl, rfl, rfl, rfl, rfl⟩

/-- Witness for C9 (amended) at setting 5 and a concrete timeout-style
error with no response. -/
theorem c9_witness :
    updateSetting 5 (Except.error ⟨none⟩) = mockUpdateResponse 5 ∧
    (updateSetting 5 (Except.error ⟨none⟩)).get "success" = some (Json.bool true) :=
  ⟨(c9_updateSetting_never_rejects_amended 5 ⟨none⟩).1,
    (c9_updateSetting_never_rejects_amended 5 ⟨none⟩).2.1⟩

end RonCrm
